import Mathlib

/-!
Verification development for the sign-language classification core
(MediaPipe hand-landmark based ASL recognizer).

The source stores 21 hand landmarks per frame and classifies them with
`recognizeASL`, maintains a bounded motion-frame buffer, runs eight dynamic
gesture detectors over that buffer on a wall-clock-gated cycle, and
stabilizes letter output with a history/commit mechanism.

Embedding conventions:
* Landmark coordinates are rationals (the source works with IEEE doubles in
  [0,1]; only `x`/`y` are ever read).
* Every source comparison of the shape `Math.sqrt a < c` or
  `Math.sqrt a > k * Math.sqrt b` (with `a, b` sums of squares and
  `c, k > 0`) is embedded in the equivalent squared form `a < c ^ 2`
  resp. `a > k ^ 2 * b`, which is exact because both sides are
  nonnegative.  The single condition that genuinely subtracts two square
  roots (the C-shape band `maxDist - minDist < 0.15`) keeps `Real.sqrt`.
* Wall-clock timestamps (`Date.now()` milliseconds) are integers.
-/

/-- A 2-D landmark point; the source never reads the `z` coordinate. -/
structure Pt where
  x : ℚ
  y : ℚ
deriving DecidableEq, Repr

/-- The 21 hand landmarks, indexed by the MediaPipe numbering. -/
abbrev Landmarks : Type := Fin 21 → Pt

/-- Squared 2-D Euclidean distance, i.e. the radicand of the source's
`Math.sqrt(Math.pow(p.x-q.x,2) + Math.pow(p.y-q.y,2))`. -/
def d2 (p q : Pt) : ℚ := (p.x - q.x) ^ 2 + (p.y - q.y) ^ 2

-- Finger indices in MediaPipe Hands landmarks (source constants).
def WRIST : Fin 21 := 0
def THUMB_TIP : Fin 21 := 4
def INDEX_MCP : Fin 21 := 5
def INDEX_PIP : Fin 21 := 6
def INDEX_TIP : Fin 21 := 8
def MIDDLE_MCP : Fin 21 := 9
def MIDDLE_PIP : Fin 21 := 10
def MIDDLE_TIP : Fin 21 := 12
def RING_PIP : Fin 21 := 14
def RING_TIP : Fin 21 := 16
def PINKY_PIP : Fin 21 := 18
def PINKY_TIP : Fin 21 := 20

/-- `isFingerExtended`: tip farther from the wrist than the PIP joint by
factor 1.1 (squared form of `tipDist > pipDist * 1.1`). -/
def isFingerExtended (lm : Landmarks) (tipIdx pipIdx : Fin 21) : Bool :=
  decide (d2 (lm tipIdx) (lm WRIST) > (11/10 : ℚ) ^ 2 * d2 (lm pipIdx) (lm WRIST))

/-- `isThumbExtended`: thumb tip farther from the wrist than the index MCP
by factor 1.2 (squared form of `tipDist > refDist * 1.2`). -/
def isThumbExtended (lm : Landmarks) : Bool :=
  decide (d2 (lm THUMB_TIP) (lm WRIST) > (12/10 : ℚ) ^ 2 * d2 (lm INDEX_MCP) (lm WRIST))

/-- The 5-boolean finger-state vector (`getFingerStates`). -/
structure FingerState where
  thumb : Bool
  index : Bool
  middle : Bool
  ring : Bool
  pinky : Bool
deriving DecidableEq, Repr

def getFingerStates (lm : Landmarks) : FingerState :=
  { thumb := isThumbExtended lm
    index := isFingerExtended lm INDEX_TIP INDEX_PIP
    middle := isFingerExtended lm MIDDLE_TIP MIDDLE_PIP
    ring := isFingerExtended lm RING_TIP RING_PIP
    pinky := isFingerExtended lm PINKY_TIP PINKY_PIP }

/-- Result of the static pose classifier: `{letter, confidence}`. -/
structure ASLResult where
  letter : Option String
  confidence : ℚ
deriving DecidableEq, Repr

/-- Real tip-to-wrist distance used by the C-shape rule. -/
noncomputable def tipDist (lm : Landmarks) (i : Fin 21) : ℝ :=
  Real.sqrt ((d2 (lm i) (lm WRIST) : ℚ) : ℝ)

/-- The C-rule condition: all five tip-to-wrist distances within a 0.15-wide
band, the maximum in (0.15, 0.5), and the four non-thumb distances above 0.2.
This is the one comparison that subtracts two square roots, so it is kept in
`Real.sqrt` form. -/
noncomputable def cShapeCond (lm : Landmarks) : Prop :=
  let tD := tipDist lm THUMB_TIP
  let iD := tipDist lm INDEX_TIP
  let mD := tipDist lm MIDDLE_TIP
  let rD := tipDist lm RING_TIP
  let pD := tipDist lm PINKY_TIP
  let maxD := max tD (max iD (max mD (max rD pD)))
  let minD := min tD (min iD (min mD (min rD pD)))
  (maxD - minD < 0.15 ∧ maxD < 0.5 ∧ maxD > 0.15) ∧
    (iD > 0.2 ∧ mD > 0.2 ∧ rD > 0.2 ∧ pD > 0.2)

open Classical in
/-- `recognizeASL` from the motion-mode variant: the ordered first-match
rule chain E, O, T, A, B, C, M, S, D, F, U, R, H, G, I, J, L, Y, P, Q, K, V,
K (duplicate), V (duplicate), N, W, X, Z, with the source's thresholds
(distance thresholds squared, see the header). -/
noncomputable def recognizeASL (lm : Landmarks) : ASLResult :=
  let f := getFingerStates lm
  let extendedCount := List.count true [f.thumb, f.index, f.middle, f.ring, f.pinky]
  -- Letter E: all fingers curled, thumb tucked (thumbDist < refDist * 0.7)
  if extendedCount == 0 &&
      decide (d2 (lm THUMB_TIP) (lm WRIST) < (7/10 : ℚ) ^ 2 * d2 (lm INDEX_MCP) (lm WRIST)) then
    ⟨some "E", 9/10⟩
  -- Letter O: only thumb extended, thumb tip close to index tip
  else if !f.index && !f.middle && !f.ring && !f.pinky && f.thumb &&
      decide (d2 (lm THUMB_TIP) (lm INDEX_TIP) < (12/100 : ℚ) ^ 2) then
    ⟨some "O", 85/100⟩
  -- Letter T: only thumb extended, thumb between index-PIP and middle-PIP
  else if !f.index && !f.middle && !f.ring && !f.pinky && f.thumb &&
      decide (d2 (lm THUMB_TIP) (lm INDEX_PIP) < (12/100 : ℚ) ^ 2) &&
      decide (d2 (lm THUMB_TIP) (lm MIDDLE_PIP) < (12/100 : ℚ) ^ 2) then
    ⟨some "T", 8/10⟩
  -- Letter A: only thumb extended, thumb NOT close to the index tip
  else if !f.index && !f.middle && !f.ring && !f.pinky && f.thumb &&
      decide (d2 (lm THUMB_TIP) (lm INDEX_TIP) ≥ (12/100 : ℚ) ^ 2) then
    ⟨some "A", 9/10⟩
  -- Letter B: four fingers up, thumb down
  else if f.index && f.middle && f.ring && f.pinky && !f.thumb then
    ⟨some "B", 9/10⟩
  -- Letter C: curved-hand band condition
  else if cShapeCond lm then
    ⟨some "C", 8/10⟩
  -- Letter M: index+middle+ring over thumb, pinky outside
  else if f.index && f.middle && f.ring && !f.pinky && !f.thumb then
    ⟨some "M", 75/100⟩
  -- Letter S: closed fist with thumb across front of fingers
  else if !f.index && !f.middle && !f.ring && !f.pinky && f.thumb then
    ⟨some "S", 85/100⟩
  -- Letter D: index up straight, all others (incl. thumb) curled
  else if f.index && !f.middle && !f.ring && !f.pinky && !f.thumb &&
      decide ((lm INDEX_TIP).y < (lm INDEX_MCP).y) &&
      decide (|(lm INDEX_TIP).x - (lm INDEX_MCP).x| < |(lm INDEX_TIP).y - (lm INDEX_MCP).y|) then
    ⟨some "D", 9/10⟩
  -- Letter F: middle/ring/pinky extended, thumb and index touching
  else if f.middle && f.ring && f.pinky &&
      decide (d2 (lm THUMB_TIP) (lm INDEX_TIP) < (15/100 : ℚ) ^ 2) then
    ⟨some "F", 8/10⟩
  -- Letter U: index+middle up together, close
  else if f.index && f.middle && !f.ring && !f.pinky && !f.thumb &&
      decide ((lm INDEX_TIP).y < (lm INDEX_PIP).y) &&
      decide ((lm MIDDLE_TIP).y < (lm MIDDLE_PIP).y) &&
      decide (d2 (lm INDEX_TIP) (lm MIDDLE_TIP) < (6/100 : ℚ) ^ 2) then
    ⟨some "U", 85/100⟩
  -- Letter R: crossed fingers (tips much closer than PIPs), not both up,
  -- at least one more vertical than horizontal
  else if f.index && f.middle && !f.ring && !f.pinky && !f.thumb &&
      decide (d2 (lm INDEX_TIP) (lm MIDDLE_TIP) < (8/10 : ℚ) ^ 2 * d2 (lm INDEX_PIP) (lm MIDDLE_PIP)) &&
      (!decide ((lm INDEX_TIP).y < (lm INDEX_PIP).y) || !decide ((lm MIDDLE_TIP).y < (lm MIDDLE_PIP).y)) &&
      (decide (|(lm INDEX_TIP).y - (lm INDEX_MCP).y| > |(lm INDEX_TIP).x - (lm INDEX_MCP).x|) ||
        decide (|(lm MIDDLE_TIP).y - (lm MIDDLE_MCP).y| > |(lm MIDDLE_TIP).x - (lm MIDDLE_MCP).x|)) then
    ⟨some "R", 85/100⟩
  -- Letter H: index+middle horizontal and close together
  else if f.index && f.middle && !f.ring && !f.pinky && !f.thumb &&
      decide (|(lm INDEX_TIP).x - (lm INDEX_MCP).x| > (12/10 : ℚ) * |(lm INDEX_TIP).y - (lm INDEX_MCP).y|) &&
      decide (|(lm MIDDLE_TIP).x - (lm MIDDLE_MCP).x| > (12/10 : ℚ) * |(lm MIDDLE_TIP).y - (lm MIDDLE_MCP).y|) &&
      decide (d2 (lm INDEX_TIP) (lm MIDDLE_TIP) < (8/100 : ℚ) ^ 2) then
    ⟨some "H", 85/100⟩
  -- Letter G: index+thumb, index pointing horizontally
  else if f.index && !f.middle && !f.ring && !f.pinky && f.thumb &&
      decide (|(lm INDEX_TIP).x - (lm INDEX_MCP).x| > |(lm INDEX_TIP).y - (lm INDEX_MCP).y|) then
    ⟨some "G", 8/10⟩
  -- Letter I: pinky up, all else down
  else if !f.index && !f.middle && !f.ring && f.pinky && !f.thumb then
    ⟨some "I", 9/10⟩
  -- Letter J: index, pinky and thumb up
  else if f.index && !f.middle && !f.ring && f.pinky && f.thumb then
    ⟨some "J", 8/10⟩
  -- Letter L: thumb and index form L
  else if f.thumb && f.index && !f.middle && !f.ring && !f.pinky then
    ⟨some "L", 9/10⟩
  -- Letter Y: thumb and pinky out
  else if f.thumb && !f.index && !f.middle && !f.ring && f.pinky then
    ⟨some "Y", 9/10⟩
  -- Letter P: K handshape pointing downward
  else if f.index && f.middle && !f.ring && !f.pinky && f.thumb &&
      decide ((lm INDEX_TIP).y > (lm INDEX_MCP).y + 5/100) then
    ⟨some "P", 8/10⟩
  -- Letter Q: G handshape pointing downward
  else if f.index && !f.middle && !f.ring && !f.pinky && f.thumb &&
      decide ((lm INDEX_TIP).y > (lm INDEX_MCP).y + 5/100) then
    ⟨some "Q", 8/10⟩
  -- Letter K: index and middle up with thumb (unconditional once reached)
  else if f.index && f.middle && !f.ring && !f.pinky && f.thumb then
    ⟨some "K", 85/100⟩
  -- Letter V: index and middle up, spread
  else if f.index && f.middle && !f.ring && !f.pinky && !f.thumb &&
      decide (d2 (lm INDEX_TIP) (lm MIDDLE_TIP) > (5/100 : ℚ) ^ 2) then
    ⟨some "V", 9/10⟩
  -- Letter K, literally duplicated block
  else if f.index && f.middle && !f.ring && !f.pinky && f.thumb then
    ⟨some "K", 85/100⟩
  -- Letter V, literally duplicated block
  else if f.index && f.middle && !f.ring && !f.pinky && !f.thumb &&
      decide (d2 (lm INDEX_TIP) (lm MIDDLE_TIP) > (5/100 : ℚ) ^ 2) then
    ⟨some "V", 9/10⟩
  -- Letter N: fallback for index+middle without thumb
  else if f.index && f.middle && !f.ring && !f.pinky && !f.thumb then
    ⟨some "N", 75/100⟩
  -- Letter W: index+middle+ring up, pinky down
  else if f.index && f.middle && f.ring && !f.pinky then
    ⟨some "W", 9/10⟩
  -- Letter X: hooked index (tip between MCP and PIP wrist distance)
  else if !f.index && !f.middle && !f.ring && !f.pinky && !f.thumb &&
      decide (d2 (lm INDEX_TIP) (lm WRIST) < d2 (lm INDEX_PIP) (lm WRIST)) &&
      decide (d2 (lm INDEX_TIP) (lm WRIST) > d2 (lm INDEX_MCP) (lm WRIST)) then
    ⟨some "X", 8/10⟩
  -- Letter Z: index pointing diagonally upward
  else if f.index && !f.middle && !f.ring && !f.pinky && !f.thumb &&
      decide ((lm INDEX_TIP).y < (lm INDEX_MCP).y) &&
      decide (|(lm INDEX_TIP).x - (lm INDEX_MCP).x| > (5/10 : ℚ) * |(lm INDEX_TIP).y - (lm INDEX_MCP).y|) then
    ⟨some "Z", 7/10⟩
  else ⟨none, 0⟩

/-! ## Motion frames and gesture detectors -/

/-- One entry of the motion buffer.  The source's optional `faceLandmarks`
field is declared in the interface but never populated by the motion-frame
construction in `onResults`, so it is omitted. -/
structure MotionFrame where
  timestamp : ℤ
  handCenter : Pt
  handShape : String
  landmarks : Landmarks

/-- `{type, detected, confidence}` produced by a gesture motion detector. -/
structure MotionPattern where
  ptype : String
  detected : Bool
  confidence : ℚ
deriving DecidableEq, Repr

/-- `getHandCenter`: centroid of all 21 landmarks. -/
def getHandCenter (lm : Landmarks) : Pt :=
  ⟨(∑ i : Fin 21, (lm i).x) / 21, (∑ i : Fin 21, (lm i).y) / 21⟩

/-- JS `array.slice(-k)`: the last `min k length` elements. -/
def lastN (k : ℕ) (l : List α) : List α := l.drop (l.length - k)

/-- Default point used for the (unreachable after the length guards)
head/last accesses on empty center lists. -/
def pt0 : Pt := ⟨0, 0⟩

/-- JS `Math.atan2 y x` as the argument of the complex number `x + y i`. -/
noncomputable def atan2 (y x : ℝ) : ℝ := Complex.arg ⟨x, y⟩

/-- The source's normalization loop
`while (d > π) d -= 2π; while (d < -π) d += 2π` applied to a difference of
two `atan2` values; since such a difference lies in `(-2π, 2π)`, each loop
body runs at most once, so the loops are exactly these two conditionals. -/
noncomputable def normAngle (d : ℝ) : ℝ :=
  let d1 := if d > Real.pi then d - 2 * Real.pi else d
  if d1 < -Real.pi then d1 + 2 * Real.pi else d1

/-- Angle (atan2) of `p` as seen from base coordinates `(bx, by)`. -/
noncomputable def angleFrom (bx by' : ℚ) (p : Pt) : ℝ :=
  atan2 ((p.y - by' : ℚ) : ℝ) ((p.x - bx : ℚ) : ℝ)

/-- All-five-fingers-extended test on the first frame of a window
(`firstFrame && firstFrame.landmarks ? allExtended : false`). -/
def isFlatHandFirst (recent : List MotionFrame) : Bool :=
  match recent.head? with
  | some fr =>
    let f := getFingerStates fr.landmarks
    f.thumb && f.index && f.middle && f.ring && f.pinky
  | none => false

/-- Fist-with-thumb test on the first frame of a window. -/
def isFistFirst (recent : List MotionFrame) : Bool :=
  match recent.head? with
  | some fr =>
    let f := getFingerStates fr.landmarks
    f.thumb && !f.index && !f.middle && !f.ring && !f.pinky
  | none => false

/-- `detectWaveMotion` (the Hello detector). -/
def detectWaveMotion (frames : List MotionFrame) : Option MotionPattern :=
  if frames.length < 8 then none else
  let recent := lastN 8 frames
  let handCenters := recent.map (·.handCenter)
  let startY := (handCenters.headD pt0).y
  let startX := (handCenters.headD pt0).x
  let endX := (handCenters.getLastD pt0).x
  let startedAtForehead := decide (startY < 4/10)
  let movedForward := decide (endX < startX - 5/100)
  let movedOutward := decide (|endX - startX| > 8/100)
  if startedAtForehead && (movedForward || movedOutward) then
    some ⟨"hello", true, 8/10⟩
  else none

/-- Process-wide face cue `{chinDetected, chinPosition}`. -/
structure FaceCue where
  chinDetected : Bool
  chinPosition : Option Pt
deriving DecidableEq, Repr

/-- `detectThankYouMotion`; the source reads the global `faceDetectionState`,
passed here as the explicit `cue` argument. -/
def detectThankYouMotion (cue : FaceCue) (frames : List MotionFrame) : Option MotionPattern :=
  if frames.length < 6 then none else
  let recent := lastN 6 frames
  let handCenters := recent.map (·.handCenter)
  let startY := (handCenters.headD pt0).y
  let startX := (handCenters.headD pt0).x
  let endX := (handCenters.getLastD pt0).x
  let isFlatHand := isFlatHandFirst recent
  let startedAtChin :=
    match cue.chinPosition with
    | some p => cue.chinDetected && decide (|startY - p.y| < 15/100)
    | none => false
  let movedForward := decide (endX < startX - 6/100)
  if startedAtChin && movedForward && isFlatHand then
    some ⟨"thank_you", true, 9/10⟩
  else if isFlatHand && decide (startY ≥ 4/10) && decide (startY ≤ 7/10) && movedForward then
    some ⟨"thank_you", true, 8/10⟩
  else none

open Classical in
/-- `detectPleaseMotion`: open hand held in the chest band making a
sufficiently circular motion (total angle change `> 0.75π` with at least 6
of the per-step angle changes above 0.1 rad). -/
noncomputable def detectPleaseMotion (frames : List MotionFrame) : Option MotionPattern :=
  if frames.length < 10 then none else
  let recent := lastN 10 frames
  let handCenters := recent.map (·.handCenter)
  let isFlatHand := isFlatHandFirst recent
  let c0 := handCenters.headD pt0
  let startY := c0.y
  let avgY := (handCenters.map (·.y)).sum / handCenters.length
  let startedAtChest := decide (startY ≥ 35/100) && decide (startY ≤ 65/100)
  let stayedAtChest := decide (avgY ≥ 35/100) && decide (avgY ≤ 65/100)
  let steps := (handCenters.zip handCenters.tail).map fun pc =>
    normAngle (angleFrom c0.x c0.y pc.2 - angleFrom c0.x c0.y pc.1)
  let totalAngleChange := (steps.map (fun d => |d|)).sum
  let directionConsistency := (steps.map (fun d => if |d| > 0.1 then (1 : ℕ) else 0)).sum
  let isCircularMotion := totalAngleChange > Real.pi * 0.75 ∧ directionConsistency ≥ 6
  if isFlatHand && startedAtChest && stayedAtChest && decide isCircularMotion then
    some ⟨"please", true, 85/100⟩
  else none

/-- `detectHelpMotion`: open hand moving up by more than 0.1. -/
def detectHelpMotion (frames : List MotionFrame) : Option MotionPattern :=
  if frames.length < 6 then none else
  let recent := lastN 6 frames
  let handCenters := recent.map (·.handCenter)
  let startY := (handCenters.headD pt0).y
  let endY := (handCenters.getLastD pt0).y
  let movedUp := decide (endY < startY - 1/10)
  let isFlatHand := isFlatHandFirst recent
  if isFlatHand && movedUp then some ⟨"help", true, 7/10⟩ else none

/-- `detectLoveMotion`: hand at chest level with a step that closes toward
the window's centroid by more than 0.05. -/
def detectLoveMotion (frames : List MotionFrame) : Option MotionPattern :=
  if frames.length < 4 then none else
  let recent := lastN 4 frames
  let handCenters := recent.map (·.handCenter)
  let centerX := (handCenters.map (·.x)).sum / handCenters.length
  let centerY := (handCenters.map (·.y)).sum / handCenters.length
  let atChestLevel := decide (centerY ≥ 4/10) && decide (centerY ≤ 7/10)
  let crossingMotion := (handCenters.zip handCenters.tail).any fun pc =>
    decide (|pc.2.x - centerX| < |pc.1.x - centerX| - 5/100)
  if atChestLevel && crossingMotion then some ⟨"love", true, 7/10⟩ else none

open Classical in
/-- `detectSorryMotion`: fist-with-thumb at chest level making a smaller,
tighter circular motion than Please (total angle change strictly between
`π/3` and `π`, with at least 4 per-step changes in `(0.05, 0.3)`).  Note the
source quirk kept here: the per-step angles are measured relative to the
average `y` (`centerY`) but the first frame's `x`. -/
noncomputable def detectSorryMotion (frames : List MotionFrame) : Option MotionPattern :=
  if frames.length < 8 then none else
  let recent := lastN 8 frames
  let handCenters := recent.map (·.handCenter)
  let isFist := isFistFirst recent
  let centerY := (handCenters.map (·.y)).sum / handCenters.length
  let atChestLevel := decide (centerY ≥ 4/10) && decide (centerY ≤ 7/10)
  let c0 := handCenters.headD pt0
  let steps := (handCenters.zip handCenters.tail).map fun pc =>
    normAngle (angleFrom c0.x centerY pc.2 - angleFrom c0.x centerY pc.1)
  let totalAngleChange := (steps.map (fun d => |d|)).sum
  let smallCircularMotion :=
    (steps.map (fun d => if |d| > 0.05 ∧ |d| < 0.3 then (1 : ℕ) else 0)).sum
  let isCircularMotion :=
    totalAngleChange > Real.pi / 3 ∧ totalAngleChange < Real.pi ∧ smallCircularMotion ≥ 4
  if isFist && atChestLevel && decide isCircularMotion then
    some ⟨"sorry", true, 85/100⟩
  else none

/-- JS `Math.sign` on rationals. -/
def sgn (q : ℚ) : ℤ := if q > 0 then 1 else if q < 0 then -1 else 0

/-- `detectYesMotion`: fist-with-thumb oscillating vertically (at least two
sign changes of the frame-to-frame vertical direction and cumulative
vertical movement above 0.1). -/
def detectYesMotion (frames : List MotionFrame) : Option MotionPattern :=
  if frames.length < 10 then none else
  let recent := lastN 10 frames
  let handCenters := recent.map (·.handCenter)
  let isFist := isFistFirst recent
  let dirs := (handCenters.zip handCenters.tail).map fun pc => pc.2.y - pc.1.y
  let totalMovement := (dirs.map (fun d => |d|)).sum
  let directionChanges :=
    (dirs.foldl (fun (acc : ℚ × ℕ) d =>
      (d, if acc.1 ≠ 0 ∧ sgn d ≠ sgn acc.1 then acc.2 + 1 else acc.2)) (0, 0)).2
  if isFist && decide (directionChanges ≥ 2) && decide (totalMovement > 1/10) then
    some ⟨"yes", true, 8/10⟩
  else none

/-- `detectNoMotion`: majority vote over the last 3 frames for the
finger-state thumb+index+middle extended, ring and pinky curled. -/
def detectNoMotion (frames : List MotionFrame) : Option MotionPattern :=
  if frames.length < 3 then none else
  let recent := lastN 3 frames
  let detectedCount := recent.countP fun fr =>
    let f := getFingerStates fr.landmarks
    f.thumb && f.index && f.middle && !f.ring && !f.pinky
  if detectedCount ≥ 2 then some ⟨"no", true, 8/10⟩ else none

/-! ## Motion buffer, arbitration and the per-frame state machines -/

/-- The motion buffer append from `onResults`:
`push(frame); if (length > 20) shift()`. -/
def pushMotionFrame (buf : List MotionFrame) (frame : MotionFrame) : List MotionFrame :=
  let b := buf ++ [frame]
  if b.length > 20 then b.tail else b

/-- The outward gesture result `{gesture, confidence, motionDetected}`. -/
structure MotionDetectionResult where
  gesture : Option String
  confidence : ℚ
  motionDetected : Bool
deriving DecidableEq, Repr

/-- `pattern && pattern.detected` on an optional detector result. -/
def matched (o : Option MotionPattern) : Bool :=
  match o with
  | some p => p.detected
  | none => false

/-- The confidence of a detector result (only read in branches where the
result is present). -/
def confOf (o : Option MotionPattern) : ℚ :=
  match o with
  | some p => p.confidence
  | none => 0

/-- The neutral/no-gesture result set on a cycle with no match. -/
def neutralResult : MotionDetectionResult := ⟨none, 0, false⟩

/-- The stabilizer's priority arbitration over the eight detector results
(the `if/else if` chain of `onResults`, lines 1132-1211): fixed order
hello > thank-you > please > help > love > SORRY > yes > no, with the
source's two explicit suppression guards (`!pleasePattern?.detected` on the
SORRY branch, `!thankYouPattern?.detected` on the yes branch). -/
def arbitrateGestures (wavePat thankPat pleasePat helpPat lovePat sryPat yesPat noPat :
    Option MotionPattern) : MotionDetectionResult :=
  if matched wavePat then ⟨some "HELLO", confOf wavePat, true⟩
  else if matched thankPat then ⟨some "THANK YOU", confOf thankPat, true⟩
  else if matched pleasePat then ⟨some "PLEASE", confOf pleasePat, true⟩
  else if matched helpPat then ⟨some "HELP", confOf helpPat, true⟩
  else if matched lovePat then ⟨some "LOVE", confOf lovePat, true⟩
  else if matched sryPat && !(matched pleasePat) then ⟨some "SORRY", confOf sryPat, true⟩
  else if matched yesPat && !(matched thankPat) then ⟨some "YES", confOf yesPat, true⟩
  else if matched noPat then ⟨some "NO", confOf noPat, true⟩
  else neutralResult

/-- One run of the whole detector suite over the current buffer, followed by
the priority arbitration. -/
noncomputable def suiteResult (cue : FaceCue) (frames : List MotionFrame) :
    MotionDetectionResult :=
  arbitrateGestures (detectWaveMotion frames) (detectThankYouMotion cue frames)
    (detectPleaseMotion frames) (detectHelpMotion frames) (detectLoveMotion frames)
    (detectSorryMotion frames) (detectYesMotion frames) (detectNoMotion frames)

/-- The gesture-side per-tick state: motion buffer, the time of the last
emitted match (`lastMotionTimeRef`) and the current outward result. -/
structure GestureState where
  motionFrames : List MotionFrame
  lastMotionTime : ℤ
  motionResult : MotionDetectionResult

/-- The gesture-stream part of `onResults` for one frame that contains a
tracked hand (part_000 lines 1066-1212): build the motion frame (the
hand-shape label comes from `recognizeASL`, `letter || 'unknown'`), append
it to the buffer, and, whenever more than 2000 ms have passed since
`lastMotionTime`, run the whole detector suite and arbitrate; on a match the
result is emitted, the buffer cleared and the timer set to `now`; on no
match the neutral result is emitted and buffer and timer are left alone.
The returned boolean reports whether the detector suite was evaluated on
this frame. -/
noncomputable def gestureCycleStep (now : ℤ) (lm : Landmarks) (cue : FaceCue)
    (s : GestureState) : GestureState × Bool :=
  let letter := recognizeASL lm
  let frame : MotionFrame := ⟨now, getHandCenter lm, letter.letter.getD "unknown", lm⟩
  let frames1 := pushMotionFrame s.motionFrames frame
  if now - s.lastMotionTime > 2000 then
    let res := suiteResult cue frames1
    if res.motionDetected then (⟨[], now, res⟩, true)
    else (⟨frames1, s.lastMotionTime, neutralResult⟩, true)
  else (⟨frames1, s.lastMotionTime, s.motionResult⟩, false)

/-- Face landmark set (only index 152, the chin, is ever consulted). -/
abbrev FaceLms : Type := Nat → Pt

/-- The face-cue update performed by `onResults` (part_000 lines
1087-1102): it runs only inside the tracked-hand branch; there, in motion
mode with a tracked face the chin (face landmark 152) is stored, otherwise
the cue is cleared.  On a frame without a tracked hand the cue is left
untouched. -/
def faceCueUpdate (inMotionMode : Bool) (hasHands : Bool) (faceLms : Option FaceLms)
    (st : FaceCue) : FaceCue :=
  if hasHands then
    if inMotionMode then
      match faceLms with
      | some fl => ⟨true, some (fl 152)⟩
      | none => ⟨false, none⟩
    else ⟨false, none⟩
  else st

/-- Hand-presence hysteresis counters and flag. -/
structure HandStab where
  detectedFrames : ℕ
  lostFrames : ℕ
  stable : Bool
deriving DecidableEq, Repr

/-- Hand-presence hysteresis, motion variant (part_000 lines 1045-1064):
the counters are bumped once by the buffer logic, the stable flag is set
from thresholds 3 and 5, and then — because the tracked-hand processing
block bumps the counters a second time — `detectedFrames` is incremented
again on a tracked-hand frame. -/
def handStabStepMotion (hasHands : Bool) (s : HandStab) : HandStab :=
  let detected1 := if hasHands then s.detectedFrames + 1 else 0
  let lost1 := if hasHands then 0 else s.lostFrames + 1
  let stable1 := if detected1 ≥ 3 then true else s.stable
  let stable2 := if lost1 ≥ 5 then false else stable1
  let detected2 := if hasHands then detected1 + 1 else detected1
  let lost2 := if hasHands then 0 else lost1
  ⟨detected2, lost2, stable2⟩

/-- Hand-presence hysteresis, static variant (part_001 lines 477-494):
single counter bump per frame, thresholds 3 (present) and 5 (absent). -/
def handStabStepStatic (hasHands : Bool) (s : HandStab) : HandStab :=
  let detected1 := if hasHands then s.detectedFrames + 1 else 0
  let lost1 := if hasHands then 0 else s.lostFrames + 1
  let stable1 := if detected1 ≥ 3 then true else s.stable
  let stable2 := if lost1 ≥ 5 then false else stable1
  ⟨detected1, lost1, stable2⟩

/-- JS `s.endsWith l`, modeled over the character lists (Lean's own
`String.endsWith` is opaque to kernel reduction). -/
def strEndsWith (s l : String) : Bool := l.data.isSuffixOf s.data

/-- The letter stream's stabilizer state: detection history, time of the
last committed letter and the accumulated output text. -/
structure LetterState where
  history : List String
  lastTime : ℤ
  text : String
deriving DecidableEq, Repr

/-- The history push of the commit block: append the letter, then trim to
at most 4 entries by dropping the oldest (`push` then conditional `shift`). -/
def pushHistory (h : List String) (l : String) : List String :=
  let h1 := h ++ [l]
  if h1.length > 4 then h1.tail else h1

/-- The letter commit block of `onResults` (part_000 lines 1224-1245,
identical in part_001 lines 510-531): a raw classification qualifies when
`letter && confidence > 0.7 && now - lastDetectionTime > 1200`; it is pushed
onto the history (trimmed to 4 via `shift`), and if every entry of
`history.slice(-2)` equals the letter, the letter commits: the text is
extended unless it already ends with the letter, the timestamp is updated
and the history cleared. -/
def letterCommitStep (letter : Option String) (confidence : ℚ) (now : ℤ)
    (s : LetterState) : LetterState :=
  match letter with
  | some l =>
    if confidence > 7/10 ∧ now - s.lastTime > 1200 then
      let h2 := pushHistory s.history l
      let recentDetections := lastN 2 h2
      if recentDetections.all (fun d => d == l) then
        ⟨[], now, if strEndsWith s.text l then s.text else s.text ++ l⟩
      else ⟨h2, s.lastTime, s.text⟩
    else s
  | none => s

/-! ## The deduplicated classifier variant (refinement target for C9) -/

open Classical in
/-- `recognizeASL` with the literally duplicated second K and second V rule
blocks removed; per the spec those duplicates are redundant-but-idempotent,
so this variant must agree with `recognizeASL` everywhere. -/
noncomputable def recognizeASLDedup (lm : Landmarks) : ASLResult :=
  let f := getFingerStates lm
  let extendedCount := List.count true [f.thumb, f.index, f.middle, f.ring, f.pinky]
  if extendedCount == 0 &&
      decide (d2 (lm THUMB_TIP) (lm WRIST) < (7/10 : ℚ) ^ 2 * d2 (lm INDEX_MCP) (lm WRIST)) then
    ⟨some "E", 9/10⟩
  else if !f.index && !f.middle && !f.ring && !f.pinky && f.thumb &&
      decide (d2 (lm THUMB_TIP) (lm INDEX_TIP) < (12/100 : ℚ) ^ 2) then
    ⟨some "O", 85/100⟩
  else if !f.index && !f.middle && !f.ring && !f.pinky && f.thumb &&
      decide (d2 (lm THUMB_TIP) (lm INDEX_PIP) < (12/100 : ℚ) ^ 2) &&
      decide (d2 (lm THUMB_TIP) (lm MIDDLE_PIP) < (12/100 : ℚ) ^ 2) then
    ⟨some "T", 8/10⟩
  else if !f.index && !f.middle && !f.ring && !f.pinky && f.thumb &&
      decide (d2 (lm THUMB_TIP) (lm INDEX_TIP) ≥ (12/100 : ℚ) ^ 2) then
    ⟨some "A", 9/10⟩
  else if f.index && f.middle && f.ring && f.pinky && !f.thumb then
    ⟨some "B", 9/10⟩
  else if cShapeCond lm then
    ⟨some "C", 8/10⟩
  else if f.index && f.middle && f.ring && !f.pinky && !f.thumb then
    ⟨some "M", 75/100⟩
  else if !f.index && !f.middle && !f.ring && !f.pinky && f.thumb then
    ⟨some "S", 85/100⟩
  else if f.index && !f.middle && !f.ring && !f.pinky && !f.thumb &&
      decide ((lm INDEX_TIP).y < (lm INDEX_MCP).y) &&
      decide (|(lm INDEX_TIP).x - (lm INDEX_MCP).x| < |(lm INDEX_TIP).y - (lm INDEX_MCP).y|) then
    ⟨some "D", 9/10⟩
  else if f.middle && f.ring && f.pinky &&
      decide (d2 (lm THUMB_TIP) (lm INDEX_TIP) < (15/100 : ℚ) ^ 2) then
    ⟨some "F", 8/10⟩
  else if f.index && f.middle && !f.ring && !f.pinky && !f.thumb &&
      decide ((lm INDEX_TIP).y < (lm INDEX_PIP).y) &&
      decide ((lm MIDDLE_TIP).y < (lm MIDDLE_PIP).y) &&
      decide (d2 (lm INDEX_TIP) (lm MIDDLE_TIP) < (6/100 : ℚ) ^ 2) then
    ⟨some "U", 85/100⟩
  else if f.index && f.middle && !f.ring && !f.pinky && !f.thumb &&
      decide (d2 (lm INDEX_TIP) (lm MIDDLE_TIP) < (8/10 : ℚ) ^ 2 * d2 (lm INDEX_PIP) (lm MIDDLE_PIP)) &&
      (!decide ((lm INDEX_TIP).y < (lm INDEX_PIP).y) || !decide ((lm MIDDLE_TIP).y < (lm MIDDLE_PIP).y)) &&
      (decide (|(lm INDEX_TIP).y - (lm INDEX_MCP).y| > |(lm INDEX_TIP).x - (lm INDEX_MCP).x|) ||
        decide (|(lm MIDDLE_TIP).y - (lm MIDDLE_MCP).y| > |(lm MIDDLE_TIP).x - (lm MIDDLE_MCP).x|)) then
    ⟨some "R", 85/100⟩
  else if f.index && f.middle && !f.ring && !f.pinky && !f.thumb &&
      decide (|(lm INDEX_TIP).x - (lm INDEX_MCP).x| > (12/10 : ℚ) * |(lm INDEX_TIP).y - (lm INDEX_MCP).y|) &&
      decide (|(lm MIDDLE_TIP).x - (lm MIDDLE_MCP).x| > (12/10 : ℚ) * |(lm MIDDLE_TIP).y - (lm MIDDLE_MCP).y|) &&
      decide (d2 (lm INDEX_TIP) (lm MIDDLE_TIP) < (8/100 : ℚ) ^ 2) then
    ⟨some "H", 85/100⟩
  else if f.index && !f.middle && !f.ring && !f.pinky && f.thumb &&
      decide (|(lm INDEX_TIP).x - (lm INDEX_MCP).x| > |(lm INDEX_TIP).y - (lm INDEX_MCP).y|) then
    ⟨some "G", 8/10⟩
  else if !f.index && !f.middle && !f.ring && f.pinky && !f.thumb then
    ⟨some "I", 9/10⟩
  else if f.index && !f.middle && !f.ring && f.pinky && f.thumb then
    ⟨some "J", 8/10⟩
  else if f.thumb && f.index && !f.middle && !f.ring && !f.pinky then
    ⟨some "L", 9/10⟩
  else if f.thumb && !f.index && !f.middle && !f.ring && f.pinky then
    ⟨some "Y", 9/10⟩
  else if f.index && f.middle && !f.ring && !f.pinky && f.thumb &&
      decide ((lm INDEX_TIP).y > (lm INDEX_MCP).y + 5/100) then
    ⟨some "P", 8/10⟩
  else if f.index && !f.middle && !f.ring && !f.pinky && f.thumb &&
      decide ((lm INDEX_TIP).y > (lm INDEX_MCP).y + 5/100) then
    ⟨some "Q", 8/10⟩
  else if f.index && f.middle && !f.ring && !f.pinky && f.thumb then
    ⟨some "K", 85/100⟩
  else if f.index && f.middle && !f.ring && !f.pinky && !f.thumb &&
      decide (d2 (lm INDEX_TIP) (lm MIDDLE_TIP) > (5/100 : ℚ) ^ 2) then
    ⟨some "V", 9/10⟩
  else if f.index && f.middle && !f.ring && !f.pinky && !f.thumb then
    ⟨some "N", 75/100⟩
  else if f.index && f.middle && f.ring && !f.pinky then
    ⟨some "W", 9/10⟩
  else if !f.index && !f.middle && !f.ring && !f.pinky && !f.thumb &&
      decide (d2 (lm INDEX_TIP) (lm WRIST) < d2 (lm INDEX_PIP) (lm WRIST)) &&
      decide (d2 (lm INDEX_TIP) (lm WRIST) > d2 (lm INDEX_MCP) (lm WRIST)) then
    ⟨some "X", 8/10⟩
  else if f.index && !f.middle && !f.ring && !f.pinky && !f.thumb &&
      decide ((lm INDEX_TIP).y < (lm INDEX_MCP).y) &&
      decide (|(lm INDEX_TIP).x - (lm INDEX_MCP).x| > (5/10 : ℚ) * |(lm INDEX_TIP).y - (lm INDEX_MCP).y|) then
    ⟨some "Z", 7/10⟩
  else ⟨none, 0⟩

/-! ## Concrete inputs used by witnesses and counterexamples -/

/-- Only-thumb hand with the thumb tip close to the index tip (O region). -/
def lmO : Landmarks := fun i =>
  match i.val with
  | 4 => ⟨4/10, 0⟩
  | 5 => ⟨3/10, 0⟩
  | 6 => ⟨38/100, 0⟩
  | 8 => ⟨35/100, 0⟩
  | 10 => ⟨2/10, 1/10⟩
  | 12 => ⟨2/10, 1/10⟩
  | 14 => ⟨15/100, 1/10⟩
  | 16 => ⟨15/100, 1/10⟩
  | 18 => ⟨1/10, 1/10⟩
  | 20 => ⟨1/10, 1/10⟩
  | _ => pt0

/-- Only-thumb hand with the thumb tip away from the index tip but within
0.12 of both the index PIP and the middle PIP (T region). -/
def lmT : Landmarks := fun i =>
  match i.val with
  | 4 => ⟨33/100, 0⟩
  | 5 => ⟨2/10, 0⟩
  | 6 => ⟨3/10, 0⟩
  | 8 => ⟨3/10, 13/100⟩
  | 10 => ⟨35/100, 0⟩
  | 12 => ⟨35/100, 0⟩
  | 14 => ⟨2/10, 1/10⟩
  | 16 => ⟨2/10, 1/10⟩
  | 18 => ⟨15/100, 1/10⟩
  | 20 => ⟨15/100, 1/10⟩
  | _ => pt0

/-- Only-thumb hand with the thumb far from index tip and both PIPs
(A region, the fallback). -/
def lmA : Landmarks := fun i =>
  match i.val with
  | 4 => ⟨6/10, 0⟩
  | 5 => ⟨3/10, 0⟩
  | 6 => ⟨35/100, 1/10⟩
  | 8 => ⟨35/100, 1/10⟩
  | 10 => ⟨3/10, 15/100⟩
  | 12 => ⟨3/10, 15/100⟩
  | 14 => ⟨25/100, 15/100⟩
  | 16 => ⟨25/100, 15/100⟩
  | 18 => ⟨2/10, 15/100⟩
  | 20 => ⟨2/10, 15/100⟩
  | _ => pt0

/-- Only-thumb hand whose thumb-tip-to-index-tip distance is exactly 0.12
(the boundary input of C2). -/
def lmBnd : Landmarks := fun i =>
  match i.val with
  | 4 => ⟨5/10, 0⟩
  | 5 => ⟨3/10, 0⟩
  | 6 => ⟨4/10, 0⟩
  | 8 => ⟨38/100, 0⟩
  | 10 => ⟨55/100, 0⟩
  | 12 => ⟨55/100, 0⟩
  | 14 => ⟨2/10, 1/10⟩
  | 16 => ⟨2/10, 1/10⟩
  | 18 => ⟨15/100, 1/10⟩
  | 20 => ⟨15/100, 1/10⟩
  | _ => pt0

/-- Index+middle+ring extended, pinky and thumb curled, with the index tip
0.6 from the wrist (so the C-shape band cannot match). -/
def lmM : Landmarks := fun i =>
  match i.val with
  | 4 => ⟨15/100, 0⟩
  | 5 => ⟨45/100, 0⟩
  | 6 => ⟨5/10, 0⟩
  | 8 => ⟨6/10, 0⟩
  | 10 => ⟨3/10, 0⟩
  | 12 => ⟨4/10, 0⟩
  | 14 => ⟨25/100, 0⟩
  | 16 => ⟨35/100, 0⟩
  | 18 => ⟨2/10, 0⟩
  | 20 => ⟨2/10, 0⟩
  | _ => pt0

/-- As `lmM` but with the thumb also extended. -/
def lmW : Landmarks := fun i =>
  match i.val with
  | 4 => ⟨6/10, 0⟩
  | 5 => ⟨45/100, 0⟩
  | 6 => ⟨5/10, 0⟩
  | 8 => ⟨6/10, 0⟩
  | 10 => ⟨3/10, 0⟩
  | 12 => ⟨4/10, 0⟩
  | 14 => ⟨25/100, 0⟩
  | 16 => ⟨35/100, 0⟩
  | 18 => ⟨2/10, 0⟩
  | 20 => ⟨2/10, 0⟩
  | _ => pt0

/-- Thumb+index+middle extended, ring and pinky curled (the "no" pose). -/
def lmNo : Landmarks := fun i =>
  match i.val with
  | 4 => ⟨5/10, 0⟩
  | 5 => ⟨3/10, 0⟩
  | 6 => ⟨4/10, 0⟩
  | 8 => ⟨6/10, 0⟩
  | 10 => ⟨35/100, 0⟩
  | 12 => ⟨55/100, 0⟩
  | 14 => ⟨25/100, 0⟩
  | 16 => ⟨25/100, 0⟩
  | 18 => ⟨2/10, 0⟩
  | 20 => ⟨2/10, 0⟩
  | _ => pt0

/-- The degenerate all-at-origin hand used where only buffer lengths matter. -/
def lmZero : Landmarks := fun _ => pt0

/-- Motion frames carrying the "no"-pose hand. -/
def frameNo1 : MotionFrame := ⟨1, getHandCenter lmNo, "unknown", lmNo⟩
def frameNo2 : MotionFrame := ⟨2, getHandCenter lmNo, "unknown", lmNo⟩

/-- 25 distinct motion frames for the buffer-eviction witness. -/
def frames25 : List MotionFrame :=
  (List.range 25).map fun k => ⟨(k : ℤ), pt0, "unknown", lmZero⟩

/-- A detected detector result with the given type tag. -/
def patD (s : String) : Option MotionPattern := some ⟨s, true, 8/10⟩

/-- A concrete face landmark set for witnesses. -/
def faceLmsC : FaceLms := fun _ => ⟨1/4, 3/4⟩

/-! ## Theorems -/

theorem pushMotionFrame_eq_drop (buf : List MotionFrame) (f : MotionFrame)
    (h : buf.length ≤ 20) :
    pushMotionFrame buf f = (buf ++ [f]).drop (buf.length + 1 - 20) := by
  unfold pushMotionFrame
  by_cases hgt : (buf ++ [f]).length > 20
  · rw [if_pos hgt, ← List.drop_one]
    congr 1
    simp only [List.length_append, List.length_singleton] at hgt
    omega
  · rw [if_neg hgt]
    simp only [List.length_append, List.length_singleton] at hgt
    rw [Nat.sub_eq_zero_of_le (by omega), List.drop_zero]

theorem pushMotionFrame_length_le (buf : List MotionFrame) (f : MotionFrame)
    (h : buf.length ≤ 20) : (pushMotionFrame buf f).length ≤ 20 := by
  unfold pushMotionFrame
  by_cases hgt : (buf ++ [f]).length > 20
  · rw [if_pos hgt]
    simp only [List.length_tail, List.length_append, List.length_singleton]
    omega
  · rw [if_neg hgt]
    simp only [List.length_append, List.length_singleton] at hgt ⊢
    omega

theorem foldl_push_drop :
    ∀ (l buf : List MotionFrame), buf.length ≤ 20 →
      List.foldl pushMotionFrame buf l = (buf ++ l).drop (buf.length + l.length - 20) := by
  intro l
  induction l with
  | nil =>
    intro buf h
    simp only [List.foldl_nil, List.append_nil, List.length_nil, Nat.add_zero]
    rw [Nat.sub_eq_zero_of_le h, List.drop_zero]
  | cons f l ih =>
    intro buf h
    rw [List.foldl_cons, ih (pushMotionFrame buf f) (pushMotionFrame_length_le buf f h),
      pushMotionFrame_eq_drop buf f h]
    have hi : buf.length + 1 - 20 ≤ (buf ++ [f]).length := by
      simp only [List.length_append, List.length_singleton]; omega
    rw [← List.drop_append_of_le_length hi, List.drop_drop]
    rw [show (buf ++ [f]) ++ l = buf ++ f :: l by simp]
    congr 1
    simp only [List.length_drop, List.length_append, List.length_singleton, List.length_cons,
      List.length_nil]
    omega

/-- Claim C3: the motion frame buffer never grows beyond 20 entries, and
after appending 25 frames (starting from the empty buffer) it holds exactly
the 20 most-recently appended frames in their original append order. -/
theorem motionBuffer_bounded_fifo :
    (∀ (buf : List MotionFrame) (f : MotionFrame), buf.length ≤ 20 →
      (pushMotionFrame buf f).length ≤ 20) ∧
    (∀ l : List MotionFrame, l.length = 25 →
      (List.foldl pushMotionFrame [] l).length = 20 ∧
        List.foldl pushMotionFrame [] l = l.drop 5) := by
  refine ⟨pushMotionFrame_length_le, ?_⟩
  intro l hl
  have hfold := foldl_push_drop l [] (by simp)
  simp only [List.nil_append, List.length_nil, Nat.zero_add] at hfold
  rw [hl] at hfold
  norm_num at hfold
  refine ⟨?_, hfold⟩
  rw [hfold, List.length_drop, hl]

theorem motionBuffer_bounded_fifo_witness :
    (([] : List MotionFrame).length ≤ 20 ∧ (pushMotionFrame [] frameNo1).length ≤ 20) ∧
    (frames25.length = 25 ∧ (List.foldl pushMotionFrame [] frames25).length = 20 ∧
      List.foldl pushMotionFrame [] frames25 = frames25.drop 5) :=
  ⟨⟨by decide, motionBuffer_bounded_fifo.1 [] frameNo1 (by decide)⟩,
   ⟨by decide, (motionBuffer_bounded_fifo.2 frames25 (by decide)).1,
    (motionBuffer_bounded_fifo.2 frames25 (by decide)).2⟩⟩

/-- Claim C5: the spec (and the source's own comments, "Require 3
consecutive frames with hands") promise stable presence only after 3
consecutive tracked-hand frames, but the motion variant increments the
detected-frames counter twice per tracked-hand frame (part_000 lines
1045-1051 and again 1062-1064), so it flips to stable after only 2 frames.
The static variant behaves as documented: stable after exactly 3
tracked-hand frames, unstable after exactly 5 hand-less frames, never
earlier in either direction (shown here on concrete runs of both variants). -/
theorem handPresence_hysteresis_eval :
    ((handStabStepMotion true (handStabStepMotion true ⟨0, 0, false⟩)).stable = true ∧
      (handStabStepMotion true ⟨0, 0, false⟩).stable = false) ∧
    ((handStabStepStatic true (handStabStepStatic true ⟨0, 0, false⟩)).stable = false ∧
      (handStabStepStatic true (handStabStepStatic true
        (handStabStepStatic true ⟨0, 0, false⟩))).stable = true) ∧
    (((handStabStepStatic false)^[4] ⟨3, 0, true⟩).stable = true ∧
      ((handStabStepStatic false)^[5] ⟨3, 0, true⟩).stable = false) ∧
    (((handStabStepMotion false)^[4] ⟨6, 0, true⟩).stable = true ∧
      ((handStabStepMotion false)^[5] ⟨6, 0, true⟩).stable = false) := by
  decide

/-- Claim C6 counterexample: a processed frame with no tracked face (and no
tracked hand) does not clear the cue — the chin position from an earlier
frame is carried over, contradicting the claimed per-frame invariant. -/
theorem faceCue_stale_counterexample :
    faceCueUpdate true false none ⟨true, some ⟨1/2, 3/5⟩⟩ = ⟨true, some ⟨1/2, 3/5⟩⟩ ∧
    (⟨true, some ⟨1/2, 3/5⟩⟩ : FaceCue) ≠ ⟨false, none⟩ := by
  refine ⟨rfl, ?_⟩
  simp

/-- Claim C6 amended: on every processed frame **with a tracked hand** the
cue reflects only the current frame's face visibility (set from the current
face landmarks in motion mode, cleared otherwise); on a frame without a
tracked hand the cue retains its previous value. -/
theorem faceCue_current_frame_only (mode hasHands : Bool) (faceLms : Option FaceLms)
    (st : FaceCue) :
    (hasHands = true → mode = true → ∀ fl, faceLms = some fl →
      faceCueUpdate mode hasHands faceLms st = ⟨true, some (fl 152)⟩) ∧
    (hasHands = true → mode = true → faceLms = none →
      faceCueUpdate mode hasHands faceLms st = ⟨false, none⟩) ∧
    (hasHands = true → mode = false →
      faceCueUpdate mode hasHands faceLms st = ⟨false, none⟩) ∧
    (hasHands = false → faceCueUpdate mode hasHands faceLms st = st) := by
  refine ⟨?_, ?_, ?_, ?_⟩ <;> intros <;> simp_all [faceCueUpdate]

theorem faceCue_current_frame_only_witness :
    (faceCueUpdate true true (some faceLmsC) ⟨false, none⟩ = ⟨true, some (faceLmsC 152)⟩) ∧
    (faceCueUpdate true true none ⟨true, some ⟨1/2, 3/5⟩⟩ = ⟨false, none⟩) ∧
    (faceCueUpdate false true (some faceLmsC) ⟨true, some ⟨1/2, 3/5⟩⟩ = ⟨false, none⟩) ∧
    (faceCueUpdate true false (some faceLmsC) ⟨true, some ⟨1/2, 3/5⟩⟩ = ⟨true, some ⟨1/2, 3/5⟩⟩) :=
  ⟨(faceCue_current_frame_only true true (some faceLmsC) ⟨false, none⟩).1 rfl rfl faceLmsC rfl,
   (faceCue_current_frame_only true true none ⟨true, some ⟨1/2, 3/5⟩⟩).2.1 rfl rfl rfl,
   (faceCue_current_frame_only false true (some faceLmsC) ⟨true, some ⟨1/2, 3/5⟩⟩).2.2.1 rfl rfl,
   (faceCue_current_frame_only true false (some faceLmsC) ⟨true, some ⟨1/2, 3/5⟩⟩).2.2.2 rfl⟩

/-- Claim C4: letter commit is gated and idempotent.  A raw classification
touches the stabilizer state only if the letter is present, its confidence
exceeds 0.7 and more than 1200 ms have passed since the last commit; a
commit happens exactly when every entry of the trimmed history's last-two
slice equals the letter, and then the history is cleared, the timestamp set
to `now`, and the text extended unless it already ends with that letter;
an attempt within 1200 ms of the last commit changes nothing, and a
fresh-history qualifying letter that is not already the text's suffix is
appended exactly once. -/
theorem letterCommit_gated_idempotent (l : String) (confidence : ℚ) (now : ℤ)
    (s : LetterState) :
    (letterCommitStep none confidence now s = s) ∧
    (¬(confidence > 7/10 ∧ now - s.lastTime > 1200) →
      letterCommitStep (some l) confidence now s = s) ∧
    (confidence > 7/10 ∧ now - s.lastTime > 1200 →
      ((lastN 2 (pushHistory s.history l)).all (fun d => d == l) = true →
        letterCommitStep (some l) confidence now s =
          ⟨[], now, if strEndsWith s.text l then s.text else s.text ++ l⟩) ∧
      ((lastN 2 (pushHistory s.history l)).all (fun d => d == l) = false →
        letterCommitStep (some l) confidence now s =
          ⟨pushHistory s.history l, s.lastTime, s.text⟩)) ∧
    (now - s.lastTime ≤ 1200 → letterCommitStep (some l) confidence now s = s) ∧
    (strEndsWith s.text l = true →
      (letterCommitStep (some l) confidence now s).text = s.text) ∧
    (s.history = [] → confidence > 7/10 → now - s.lastTime > 1200 →
      strEndsWith s.text l = false →
      letterCommitStep (some l) confidence now s = ⟨[], now, s.text ++ l⟩) := by
  refine ⟨rfl, ?_, ?_, ?_, ?_, ?_⟩
  · intro h
    simp [letterCommitStep, h]
  · intro h
    constructor
    · intro hst
      simp [letterCommitStep, h, hst]
    · intro hst
      simp [letterCommitStep, h, hst]
  · intro h
    have hq : ¬(confidence > 7/10 ∧ now - s.lastTime > 1200) := by
      rintro ⟨_, h2⟩; omega
    simp [letterCommitStep, hq]
  · intro h
    by_cases hq : confidence > 7/10 ∧ now - s.lastTime > 1200
    · by_cases hst : (lastN 2 (pushHistory s.history l)).all (fun d => d == l) = true
      · simp [letterCommitStep, hq, hst, h]
      · simp only [Bool.not_eq_true] at hst
        simp [letterCommitStep, hq, hst]
    · simp [letterCommitStep, hq]
  · intro h0 h1 h2 h3
    simp [letterCommitStep, pushHistory, lastN, h0, h1, h2, h3]

theorem letterCommit_gated_idempotent_witness :
    letterCommitStep (some "A") (1/2) 2000 ⟨[], 0, "X"⟩ = ⟨[], 0, "X"⟩ ∧
    letterCommitStep (some "A") 1 1300 ⟨["A"], 0, ""⟩ =
      ⟨[], 1300, if strEndsWith "" "A" then "" else "" ++ "A"⟩ ∧
    letterCommitStep (some "A") 1 1300 ⟨["B"], 0, ""⟩ = ⟨pushHistory ["B"] "A", 0, ""⟩ ∧
    letterCommitStep (some "A") 1 1000 ⟨[], 0, "A"⟩ = ⟨[], 0, "A"⟩ ∧
    (letterCommitStep (some "A") 1 1300 ⟨[], 0, "A"⟩).text = "A" ∧
    letterCommitStep (some "B") 1 1300 ⟨[], 0, "A"⟩ = ⟨[], 1300, "A" ++ "B"⟩ :=
  ⟨(letterCommit_gated_idempotent "A" (1/2) 2000 ⟨[], 0, "X"⟩).2.1
      (fun h => absurd h.1 (by norm_num)),
   ((letterCommit_gated_idempotent "A" 1 1300 ⟨["A"], 0, ""⟩).2.2.1
      (by norm_num)).1 (by decide),
   ((letterCommit_gated_idempotent "A" 1 1300 ⟨["B"], 0, ""⟩).2.2.1
      (by norm_num)).2 (by decide),
   (letterCommit_gated_idempotent "A" 1 1000 ⟨[], 0, "A"⟩).2.2.2.1 (by norm_num),
   (letterCommit_gated_idempotent "A" 1 1300 ⟨[], 0, "A"⟩).2.2.2.2.1 (by decide),
   (letterCommit_gated_idempotent "B" 1 1300 ⟨[], 0, "A"⟩).2.2.2.2.2 rfl
      (by norm_num) (by norm_num) (by decide)⟩

set_option maxHeartbeats 2000000 in
/-- Claim C1: in each gesture detection cycle the stabilizer emits at most
one gesture — the first detected one in the fixed priority order
hello > thank-you > please > help > love > SORRY > yes > no — and the two
mutual-exclusion overrides hold: whenever both the please and the SORRY
detectors match, the emitted gesture is never SORRY (and is please unless a
strictly higher-priority detector also matched); whenever both the
thank-you and the yes detectors match, the emitted gesture is never yes
(and is thank-you unless hello also matched). -/
theorem gestureArbitration_priority_exclusion
    (wv th pl hp lv sy ys nn : Option MotionPattern) :
    (matched pl = true → matched sy = true →
      (arbitrateGestures wv th pl hp lv sy ys nn).gesture ≠ some "SORRY") ∧
    (matched th = true → matched ys = true →
      (arbitrateGestures wv th pl hp lv sy ys nn).gesture ≠ some "YES") ∧
    (matched pl = true → matched wv = false → matched th = false →
      (arbitrateGestures wv th pl hp lv sy ys nn).gesture = some "PLEASE") ∧
    (matched th = true → matched wv = false →
      (arbitrateGestures wv th pl hp lv sy ys nn).gesture = some "THANK YOU") ∧
    (matched wv = true →
      (arbitrateGestures wv th pl hp lv sy ys nn).gesture = some "HELLO") ∧
    (matched hp = true → matched wv = false → matched th = false → matched pl = false →
      (arbitrateGestures wv th pl hp lv sy ys nn).gesture = some "HELP") ∧
    (matched lv = true → matched wv = false → matched th = false → matched pl = false →
      matched hp = false →
      (arbitrateGestures wv th pl hp lv sy ys nn).gesture = some "LOVE") ∧
    (matched sy = true → matched wv = false → matched th = false → matched pl = false →
      matched hp = false → matched lv = false →
      (arbitrateGestures wv th pl hp lv sy ys nn).gesture = some "SORRY") ∧
    (matched ys = true → matched wv = false → matched th = false → matched pl = false →
      matched hp = false → matched lv = false → matched sy = false →
      (arbitrateGestures wv th pl hp lv sy ys nn).gesture = some "YES") ∧
    (matched nn = true → matched wv = false → matched th = false → matched pl = false →
      matched hp = false → matched lv = false → matched sy = false → matched ys = false →
      (arbitrateGestures wv th pl hp lv sy ys nn).gesture = some "NO") ∧
    (matched wv = false → matched th = false → matched pl = false → matched hp = false →
      matched lv = false → matched sy = false → matched ys = false → matched nn = false →
      arbitrateGestures wv th pl hp lv sy ys nn = neutralResult) ∧
    ((arbitrateGestures wv th pl hp lv sy ys nn).gesture = none ∨
      (arbitrateGestures wv th pl hp lv sy ys nn).gesture ∈
        [some "HELLO", some "THANK YOU", some "PLEASE", some "HELP", some "LOVE",
          some "SORRY", some "YES", some "NO"]) := by
  refine ⟨?_, ?_, ?_, ?_, ?_, ?_, ?_, ?_, ?_, ?_, ?_, ?_⟩ <;>
    · intros
      unfold arbitrateGestures
      split_ifs <;> simp_all [neutralResult]

theorem gestureArbitration_priority_exclusion_witness :
    ((arbitrateGestures (patD "hello") (patD "thank_you") (patD "please") (patD "help")
        (patD "love") (patD "s") (patD "yes") (patD "no")).gesture ≠ some "SORRY") ∧
    ((arbitrateGestures (patD "hello") (patD "thank_you") (patD "please") (patD "help")
        (patD "love") (patD "s") (patD "yes") (patD "no")).gesture ≠ some "YES") ∧
    ((arbitrateGestures (patD "hello") (patD "thank_you") (patD "please") (patD "help")
        (patD "love") (patD "s") (patD "yes") (patD "no")).gesture = some "HELLO") ∧
    ((arbitrateGestures none none (patD "please") none none (patD "s") none
        none).gesture = some "PLEASE") ∧
    ((arbitrateGestures none (patD "thank_you") none none none none (patD "yes")
        none).gesture = some "THANK YOU") ∧
    ((arbitrateGestures none none none (patD "help") none none none none).gesture =
      some "HELP") ∧
    ((arbitrateGestures none none none none (patD "love") none none none).gesture =
      some "LOVE") ∧
    ((arbitrateGestures none none none none none (patD "s") none none).gesture =
      some "SORRY") ∧
    ((arbitrateGestures none none none none none none (patD "yes") none).gesture =
      some "YES") ∧
    ((arbitrateGestures none none none none none none none (patD "no")).gesture =
      some "NO") ∧
    (arbitrateGestures none none none none none none none none = neutralResult) :=
  ⟨(gestureArbitration_priority_exclusion (patD "hello") (patD "thank_you") (patD "please")
      (patD "help") (patD "love") (patD "s") (patD "yes") (patD "no")).1 rfl rfl,
   (gestureArbitration_priority_exclusion (patD "hello") (patD "thank_you") (patD "please")
      (patD "help") (patD "love") (patD "s") (patD "yes") (patD "no")).2.1 rfl rfl,
   (gestureArbitration_priority_exclusion (patD "hello") (patD "thank_you") (patD "please")
      (patD "help") (patD "love") (patD "s") (patD "yes") (patD "no")).2.2.2.2.1 rfl,
   (gestureArbitration_priority_exclusion none none (patD "please") none none (patD "s")
      none none).2.2.1 rfl rfl rfl,
   (gestureArbitration_priority_exclusion none (patD "thank_you") none none none none
      (patD "yes") none).2.2.2.1 rfl rfl,
   (gestureArbitration_priority_exclusion none none none (patD "help") none none none
      none).2.2.2.2.2.1 rfl rfl rfl rfl,
   (gestureArbitration_priority_exclusion none none none none (patD "love") none none
      none).2.2.2.2.2.2.1 rfl rfl rfl rfl rfl,
   (gestureArbitration_priority_exclusion none none none none none (patD "s") none
      none).2.2.2.2.2.2.2.1 rfl rfl rfl rfl rfl rfl,
   (gestureArbitration_priority_exclusion none none none none none none (patD "yes")
      none).2.2.2.2.2.2.2.2.1 rfl rfl rfl rfl rfl rfl rfl,
   (gestureArbitration_priority_exclusion none none none none none none none
      (patD "no")).2.2.2.2.2.2.2.2.2.1 rfl rfl rfl rfl rfl rfl rfl rfl,
   (gestureArbitration_priority_exclusion none none none none none none none
      none).2.2.2.2.2.2.2.2.2.2.1 rfl rfl rfl rfl rfl rfl rfl rfl⟩

theorem tipDist_eq (lm : Landmarks) (i : Fin 21) (q : ℚ) (r : ℝ)
    (hd : d2 (lm i) (lm WRIST) = q) (hq : (q : ℝ) = r ^ 2) (hr : 0 ≤ r) :
    tipDist lm i = r := by
  unfold tipDist
  rw [hd, hq, Real.sqrt_sq hr]

theorem cShapeCond_iff (lm : Landmarks) (vt vi vm vr vp : ℝ)
    (ht : tipDist lm THUMB_TIP = vt) (hi : tipDist lm INDEX_TIP = vi)
    (hm : tipDist lm MIDDLE_TIP = vm) (hr : tipDist lm RING_TIP = vr)
    (hp : tipDist lm PINKY_TIP = vp) :
    cShapeCond lm ↔
      ((max vt (max vi (max vm (max vr vp))) -
          min vt (min vi (min vm (min vr vp))) < 0.15 ∧
        max vt (max vi (max vm (max vr vp))) < 0.5 ∧
        max vt (max vi (max vm (max vr vp))) > 0.15) ∧
        (vi > 0.2 ∧ vm > 0.2 ∧ vr > 0.2 ∧ vp > 0.2)) := by
  simp only [cShapeCond, ht, hi, hm, hr, hp]

/-- Claim C2: for any 21-landmark input whose finger-state is
thumb-only-extended, the classifier lands in O when the squared
thumb-tip-to-index-tip distance is below `0.12²`, in T when it is not but
the thumb is within 0.12 of both the index PIP and the middle PIP, in A
otherwise, and an input at exactly distance 0.12 is never classified O
(the O rule is strict `<`, the A rule is `>=`). -/
theorem onlyThumb_O_T_A (lm : Landmarks)
    (hf : getFingerStates lm = ⟨true, false, false, false, false⟩) :
    (d2 (lm THUMB_TIP) (lm INDEX_TIP) < (12/100 : ℚ) ^ 2 →
      recognizeASL lm = ⟨some "O", 85/100⟩) ∧
    (¬ d2 (lm THUMB_TIP) (lm INDEX_TIP) < (12/100 : ℚ) ^ 2 →
      d2 (lm THUMB_TIP) (lm INDEX_PIP) < (12/100 : ℚ) ^ 2 →
      d2 (lm THUMB_TIP) (lm MIDDLE_PIP) < (12/100 : ℚ) ^ 2 →
      recognizeASL lm = ⟨some "T", 8/10⟩) ∧
    (¬ d2 (lm THUMB_TIP) (lm INDEX_TIP) < (12/100 : ℚ) ^ 2 →
      ¬ (d2 (lm THUMB_TIP) (lm INDEX_PIP) < (12/100 : ℚ) ^ 2 ∧
         d2 (lm THUMB_TIP) (lm MIDDLE_PIP) < (12/100 : ℚ) ^ 2) →
      recognizeASL lm = ⟨some "A", 9/10⟩) ∧
    (d2 (lm THUMB_TIP) (lm INDEX_TIP) = (12/100 : ℚ) ^ 2 →
      (recognizeASL lm).letter ≠ some "O") := by
  refine ⟨?_, ?_, ?_, ?_⟩
  · intro hO
    simp [recognizeASL, hf, hO]
  · intro hO hT1 hT2
    simp [recognizeASL, hf, hO, hT1, hT2]
  · intro hO hT
    have hA : d2 (lm THUMB_TIP) (lm INDEX_TIP) ≥ (12/100 : ℚ) ^ 2 := le_of_not_lt hO
    simp [recognizeASL, hf, hO, hT, hA]
  · intro hB
    have hO : ¬ d2 (lm THUMB_TIP) (lm INDEX_TIP) < (12/100 : ℚ) ^ 2 := by
      rw [hB]; exact lt_irrefl _
    have hA : d2 (lm THUMB_TIP) (lm INDEX_TIP) ≥ (12/100 : ℚ) ^ 2 := le_of_not_lt hO
    simp [recognizeASL, hf, hO, hA]
    split_ifs <;> simp

theorem fs_lmO : getFingerStates lmO = ⟨true, false, false, false, false⟩ := by
  norm_num [getFingerStates, isFingerExtended, isThumbExtended, lmO, d2, WRIST, THUMB_TIP,
    INDEX_MCP, INDEX_PIP, INDEX_TIP, MIDDLE_PIP, MIDDLE_TIP, RING_PIP, RING_TIP, PINKY_PIP,
    PINKY_TIP, pt0]

theorem fs_lmT : getFingerStates lmT = ⟨true, false, false, false, false⟩ := by
  norm_num [getFingerStates, isFingerExtended, isThumbExtended, lmT, d2, WRIST, THUMB_TIP,
    INDEX_MCP, INDEX_PIP, INDEX_TIP, MIDDLE_PIP, MIDDLE_TIP, RING_PIP, RING_TIP, PINKY_PIP,
    PINKY_TIP, pt0]

theorem fs_lmA : getFingerStates lmA = ⟨true, false, false, false, false⟩ := by
  norm_num [getFingerStates, isFingerExtended, isThumbExtended, lmA, d2, WRIST, THUMB_TIP,
    INDEX_MCP, INDEX_PIP, INDEX_TIP, MIDDLE_PIP, MIDDLE_TIP, RING_PIP, RING_TIP, PINKY_PIP,
    PINKY_TIP, pt0]

theorem fs_lmBnd : getFingerStates lmBnd = ⟨true, false, false, false, false⟩ := by
  norm_num [getFingerStates, isFingerExtended, isThumbExtended, lmBnd, d2, WRIST, THUMB_TIP,
    INDEX_MCP, INDEX_PIP, INDEX_TIP, MIDDLE_PIP, MIDDLE_TIP, RING_PIP, RING_TIP, PINKY_PIP,
    PINKY_TIP, pt0]

theorem onlyThumb_O_T_A_witness :
    (getFingerStates lmO = ⟨true, false, false, false, false⟩ ∧
      recognizeASL lmO = ⟨some "O", 85/100⟩) ∧
    (getFingerStates lmT = ⟨true, false, false, false, false⟩ ∧
      recognizeASL lmT = ⟨some "T", 8/10⟩) ∧
    (getFingerStates lmA = ⟨true, false, false, false, false⟩ ∧
      recognizeASL lmA = ⟨some "A", 9/10⟩) ∧
    (d2 (lmBnd THUMB_TIP) (lmBnd INDEX_TIP) = (12/100 : ℚ) ^ 2 ∧
      (recognizeASL lmBnd).letter ≠ some "O") :=
  ⟨⟨fs_lmO, (onlyThumb_O_T_A lmO fs_lmO).1
      (by norm_num [lmO, d2, THUMB_TIP, INDEX_TIP, pt0])⟩,
   ⟨fs_lmT, (onlyThumb_O_T_A lmT fs_lmT).2.1
      (by norm_num [lmT, d2, THUMB_TIP, INDEX_TIP, pt0])
      (by norm_num [lmT, d2, THUMB_TIP, INDEX_PIP, pt0])
      (by norm_num [lmT, d2, THUMB_TIP, MIDDLE_PIP, pt0])⟩,
   ⟨fs_lmA, (onlyThumb_O_T_A lmA fs_lmA).2.2.1
      (by norm_num [lmA, d2, THUMB_TIP, INDEX_TIP, pt0])
      (by norm_num [lmA, d2, THUMB_TIP, INDEX_PIP, MIDDLE_PIP, pt0])⟩,
   ⟨by norm_num [lmBnd, d2, THUMB_TIP, INDEX_TIP, pt0],
    (onlyThumb_O_T_A lmBnd fs_lmBnd).2.2.2
      (by norm_num [lmBnd, d2, THUMB_TIP, INDEX_TIP, pt0])⟩⟩

set_option maxHeartbeats 3000000 in
/-- Claim C10: for a thumb-only finger-state the O / T / A rules exhaust all
cases before the S rule is reached (A's `>=` is the complement of O's `<`),
so the S branch of the motion-mode classifier is unreachable and the letter
S is never an output of `recognizeASL`. -/
theorem sRule_unreachable :
    (∀ lm : Landmarks, getFingerStates lm = ⟨true, false, false, false, false⟩ →
      (recognizeASL lm).letter = some "O" ∨ (recognizeASL lm).letter = some "T" ∨
        (recognizeASL lm).letter = some "A") ∧
    (∀ lm : Landmarks, (recognizeASL lm).letter ≠ some "S") := by
  have part1 : ∀ lm : Landmarks, getFingerStates lm = ⟨true, false, false, false, false⟩ →
      (recognizeASL lm).letter = some "O" ∨ (recognizeASL lm).letter = some "T" ∨
        (recognizeASL lm).letter = some "A" := by
    intro lm hf
    by_cases hO : d2 (lm THUMB_TIP) (lm INDEX_TIP) < (12/100 : ℚ) ^ 2
    · simp [recognizeASL, hf, hO]
    · by_cases hT : d2 (lm THUMB_TIP) (lm INDEX_PIP) < (12/100 : ℚ) ^ 2 ∧
          d2 (lm THUMB_TIP) (lm MIDDLE_PIP) < (12/100 : ℚ) ^ 2
      · simp [recognizeASL, hf, hO, hT.1, hT.2]
      · have hA : d2 (lm THUMB_TIP) (lm INDEX_TIP) ≥ (12/100 : ℚ) ^ 2 := le_of_not_lt hO
        simp [recognizeASL, hf, hO, hT, hA]
  refine ⟨part1, ?_⟩
  intro lm
  rcases hfs : getFingerStates lm with ⟨t, i, m, r, p⟩
  cases t <;> cases i <;> cases m <;> cases r <;> cases p <;>
    · simp [recognizeASL, hfs]
      try split_ifs
      all_goals try simp_all

theorem sRule_unreachable_witness :
    (getFingerStates lmA = ⟨true, false, false, false, false⟩ ∧
      ((recognizeASL lmA).letter = some "O" ∨ (recognizeASL lmA).letter = some "T" ∨
        (recognizeASL lmA).letter = some "A")) ∧
    (recognizeASL lmO).letter ≠ some "S" :=
  ⟨⟨fs_lmA, sRule_unreachable.1 lmA fs_lmA⟩, sRule_unreachable.2 lmO⟩

theorem fs_lmM : getFingerStates lmM = ⟨false, true, true, true, false⟩ := by
  norm_num [getFingerStates, isFingerExtended, isThumbExtended, lmM, d2, WRIST, THUMB_TIP,
    INDEX_MCP, INDEX_PIP, INDEX_TIP, MIDDLE_PIP, MIDDLE_TIP, RING_PIP, RING_TIP, PINKY_PIP,
    PINKY_TIP, pt0]

theorem fs_lmW : getFingerStates lmW = ⟨true, true, true, true, false⟩ := by
  norm_num [getFingerStates, isFingerExtended, isThumbExtended, lmW, d2, WRIST, THUMB_TIP,
    INDEX_MCP, INDEX_PIP, INDEX_TIP, MIDDLE_PIP, MIDDLE_TIP, RING_PIP, RING_TIP, PINKY_PIP,
    PINKY_TIP, pt0]

theorem lmM_not_cShape : ¬ cShapeCond lmM := by
  rw [cShapeCond_iff lmM (15/100 : ℚ) (6/10 : ℚ) (4/10 : ℚ) (35/100 : ℚ) (2/10 : ℚ)
    (tipDist_eq lmM THUMB_TIP (9/400) _ (by norm_num [d2, lmM, THUMB_TIP, WRIST, pt0])
      (by norm_num) (by norm_num))
    (tipDist_eq lmM INDEX_TIP (9/25) _ (by norm_num [d2, lmM, INDEX_TIP, WRIST, pt0])
      (by norm_num) (by norm_num))
    (tipDist_eq lmM MIDDLE_TIP (4/25) _ (by norm_num [d2, lmM, MIDDLE_TIP, WRIST, pt0])
      (by norm_num) (by norm_num))
    (tipDist_eq lmM RING_TIP (49/400) _ (by norm_num [d2, lmM, RING_TIP, WRIST, pt0])
      (by norm_num) (by norm_num))
    (tipDist_eq lmM PINKY_TIP (1/25) _ (by norm_num [d2, lmM, PINKY_TIP, WRIST, pt0])
      (by norm_num) (by norm_num))]
  norm_num

theorem lmW_not_cShape : ¬ cShapeCond lmW := by
  rw [cShapeCond_iff lmW (6/10 : ℚ) (6/10 : ℚ) (4/10 : ℚ) (35/100 : ℚ) (2/10 : ℚ)
    (tipDist_eq lmW THUMB_TIP (9/25) _ (by norm_num [d2, lmW, THUMB_TIP, WRIST, pt0])
      (by norm_num) (by norm_num))
    (tipDist_eq lmW INDEX_TIP (9/25) _ (by norm_num [d2, lmW, INDEX_TIP, WRIST, pt0])
      (by norm_num) (by norm_num))
    (tipDist_eq lmW MIDDLE_TIP (4/25) _ (by norm_num [d2, lmW, MIDDLE_TIP, WRIST, pt0])
      (by norm_num) (by norm_num))
    (tipDist_eq lmW RING_TIP (49/400) _ (by norm_num [d2, lmW, RING_TIP, WRIST, pt0])
      (by norm_num) (by norm_num))
    (tipDist_eq lmW PINKY_TIP (1/25) _ (by norm_num [d2, lmW, PINKY_TIP, WRIST, pt0])
      (by norm_num) (by norm_num))]
  norm_num

/-- Claim C8 counterexample: a 21-landmark input with index, middle and ring
extended and pinky curled whose thumb is also curled is classified M (0.75),
not W — the W rule is not reached regardless-of-thumb. -/
theorem wRule_counterexample :
    getFingerStates lmM = ⟨false, true, true, true, false⟩ ∧
    recognizeASL lmM = ⟨some "M", 75/100⟩ ∧
    (recognizeASL lmM).letter ≠ some "W" := by
  have hM : recognizeASL lmM = ⟨some "M", 75/100⟩ := by
    simp [recognizeASL, fs_lmM, lmM_not_cShape]
  exact ⟨fs_lmM, hM, by rw [hM]; simp⟩

/-- Claim C8 amended: with index+middle+ring extended and pinky curled (and
the C-shape band rule not matching), the classifier returns W (0.9) when the
thumb is also extended; when the thumb is curled the earlier M rule fires
first and the result is M (0.75). -/
theorem wRule_thumb_dependent (lm : Landmarks) :
    (getFingerStates lm = ⟨true, true, true, true, false⟩ → ¬ cShapeCond lm →
      recognizeASL lm = ⟨some "W", 9/10⟩) ∧
    (getFingerStates lm = ⟨false, true, true, true, false⟩ → ¬ cShapeCond lm →
      recognizeASL lm = ⟨some "M", 75/100⟩) := by
  constructor <;> · intro hf hC; simp [recognizeASL, hf, hC]

theorem wRule_thumb_dependent_witness :
    (getFingerStates lmW = ⟨true, true, true, true, false⟩ ∧
      recognizeASL lmW = ⟨some "W", 9/10⟩) ∧
    (getFingerStates lmM = ⟨false, true, true, true, false⟩ ∧
      recognizeASL lmM = ⟨some "M", 75/100⟩) :=
  ⟨⟨fs_lmW, (wRule_thumb_dependent lmW).1 fs_lmW lmW_not_cShape⟩,
   ⟨fs_lmM, (wRule_thumb_dependent lmM).2 fs_lmM lmM_not_cShape⟩⟩

set_option maxHeartbeats 3000000 in
/-- Claim C9: the literally duplicated second K and second V rule blocks in
the motion-mode classifier are redundant and idempotent — removing them
changes the result on no input, because a duplicate block's guard can only
be reached after the identical guard of its first occurrence has already
failed. -/
theorem dedup_equivalent (lm : Landmarks) : recognizeASL lm = recognizeASLDedup lm := by
  rcases hfs : getFingerStates lm with ⟨t, i, m, r, p⟩
  cases t <;> cases i <;> cases m <;> cases r <;> cases p <;>
    · simp [recognizeASL, recognizeASLDedup, hfs]
      try (split_ifs <;> rfl)

theorem suite_short (cue : FaceCue) (frames : List MotionFrame) (h : frames.length ≤ 2) :
    suiteResult cue frames = neutralResult := by
  have h3 : frames.length < 3 := by omega
  have h4 : frames.length < 4 := by omega
  have h6 : frames.length < 6 := by omega
  have h8 : frames.length < 8 := by omega
  have h10 : frames.length < 10 := by omega
  simp [suiteResult, detectWaveMotion, detectThankYouMotion, detectPleaseMotion,
    detectHelpMotion, detectLoveMotion, detectSorryMotion, detectYesMotion, detectNoMotion,
    arbitrateGestures, matched, h3, h4, h6, h8, h10]

/-- Claim C7 amended: the detector suite is evaluated on a tracked-hand
frame exactly when more than 2000 ms have passed since the last emitted
match; on a match the timer is set to `now` and the buffer cleared, while on
a no-match evaluation the timer is NOT reset (so the suite may run again on
the very next frame) and the neutral result is reported with the buffer kept. -/
theorem gestureCycle_cooldown (now : ℤ) (lm : Landmarks) (cue : FaceCue) (s : GestureState) :
    ((gestureCycleStep now lm cue s).2 = true ↔ now - s.lastMotionTime > 2000) ∧
    (now - s.lastMotionTime > 2000 →
      (suiteResult cue (pushMotionFrame s.motionFrames
          ⟨now, getHandCenter lm, (recognizeASL lm).letter.getD "unknown", lm⟩)).motionDetected
            = true →
      (gestureCycleStep now lm cue s).1.lastMotionTime = now ∧
        (gestureCycleStep now lm cue s).1.motionFrames = []) ∧
    (now - s.lastMotionTime > 2000 →
      (suiteResult cue (pushMotionFrame s.motionFrames
          ⟨now, getHandCenter lm, (recognizeASL lm).letter.getD "unknown", lm⟩)).motionDetected
            = false →
      (gestureCycleStep now lm cue s).1.lastMotionTime = s.lastMotionTime ∧
        (gestureCycleStep now lm cue s).1.motionFrames = pushMotionFrame s.motionFrames
          ⟨now, getHandCenter lm, (recognizeASL lm).letter.getD "unknown", lm⟩ ∧
        (gestureCycleStep now lm cue s).1.motionResult = neutralResult) ∧
    (¬ now - s.lastMotionTime > 2000 →
      (gestureCycleStep now lm cue s).1 = ⟨pushMotionFrame s.motionFrames
          ⟨now, getHandCenter lm, (recognizeASL lm).letter.getD "unknown", lm⟩,
          s.lastMotionTime, s.motionResult⟩ ∧
        (gestureCycleStep now lm cue s).2 = false) := by
  refine ⟨⟨?_, ?_⟩, ?_, ?_, ?_⟩
  · intro hev
    by_cases h : now - s.lastMotionTime > 2000
    · exact h
    · simp [gestureCycleStep, h] at hev
  · intro h
    by_cases hm : (suiteResult cue (pushMotionFrame s.motionFrames
        ⟨now, getHandCenter lm, (recognizeASL lm).letter.getD "unknown", lm⟩)).motionDetected
    · simp [gestureCycleStep, h, hm]
    · simp [gestureCycleStep, h, hm]
  · intro h hm
    simp [gestureCycleStep, h, hm]
  · intro h hm
    simp [gestureCycleStep, h, hm]
  · intro h
    simp [gestureCycleStep, h]

/-- Claim C7 counterexample: starting from the initial state (timer 0), the
detector suite is evaluated on a tracked-hand frame at t = 2001 ms and —
because no match occurred, so the timer was not reset — evaluated again on
the very next frame at t = 2002 ms: two consecutive suite evaluations only
1 ms (< 2000 ms) apart. -/
theorem gestureCycle_cadence_counterexample :
    (gestureCycleStep 2001 lmZero ⟨false, none⟩ ⟨[], 0, neutralResult⟩).2 = true ∧
    (gestureCycleStep 2002 lmZero ⟨false, none⟩
      (gestureCycleStep 2001 lmZero ⟨false, none⟩ ⟨[], 0, neutralResult⟩).1).2 = true ∧
    (2002 : ℤ) - 2001 < 2000 := by
  have h1 : suiteResult ⟨false, none⟩ (pushMotionFrame []
      ⟨2001, getHandCenter lmZero, (recognizeASL lmZero).letter.getD "unknown", lmZero⟩) =
      neutralResult := suite_short _ _ (by simp [pushMotionFrame])
  have hstep1 : (gestureCycleStep 2001 lmZero ⟨false, none⟩ ⟨[], 0, neutralResult⟩).1 =
      ⟨pushMotionFrame []
        ⟨2001, getHandCenter lmZero, (recognizeASL lmZero).letter.getD "unknown", lmZero⟩,
        0, neutralResult⟩ := by
    norm_num [gestureCycleStep, h1, neutralResult]
  refine ⟨?_, ?_, by norm_num⟩
  · norm_num [gestureCycleStep, h1, neutralResult]
  · rw [hstep1]
    have h2 : suiteResult ⟨false, none⟩ (pushMotionFrame (pushMotionFrame []
        ⟨2001, getHandCenter lmZero, (recognizeASL lmZero).letter.getD "unknown", lmZero⟩)
        ⟨2002, getHandCenter lmZero, (recognizeASL lmZero).letter.getD "unknown", lmZero⟩) =
        neutralResult := suite_short _ _ (by simp [pushMotionFrame])
    norm_num [gestureCycleStep, h2, neutralResult]

theorem fs_lmNo : getFingerStates lmNo = ⟨true, true, true, false, false⟩ := by
  norm_num [getFingerStates, isFingerExtended, isThumbExtended, lmNo, d2, WRIST, THUMB_TIP,
    INDEX_MCP, INDEX_PIP, INDEX_TIP, MIDDLE_PIP, MIDDLE_TIP, RING_PIP, RING_TIP, PINKY_PIP,
    PINKY_TIP, pt0]

theorem gestureCycle_cooldown_witness :
    ((2001 : ℤ) - 0 > 2000 ∧
      (gestureCycleStep 2001 lmNo ⟨false, none⟩
          ⟨[frameNo1, frameNo2], 0, neutralResult⟩).1.lastMotionTime = 2001 ∧
      (gestureCycleStep 2001 lmNo ⟨false, none⟩
          ⟨[frameNo1, frameNo2], 0, neutralResult⟩).1.motionFrames = []) ∧
    ((gestureCycleStep 2001 lmZero ⟨false, none⟩
        ⟨[], 0, neutralResult⟩).1.lastMotionTime = 0 ∧
      (gestureCycleStep 2001 lmZero ⟨false, none⟩
        ⟨[], 0, neutralResult⟩).1.motionResult = neutralResult) ∧
    (gestureCycleStep 100 lmZero ⟨false, none⟩ ⟨[], 0, neutralResult⟩).2 = false := by
  have hpush : pushMotionFrame [frameNo1, frameNo2]
      ⟨2001, getHandCenter lmNo, (recognizeASL lmNo).letter.getD "unknown", lmNo⟩ =
      [frameNo1, frameNo2,
        ⟨2001, getHandCenter lmNo, (recognizeASL lmNo).letter.getD "unknown", lmNo⟩] := by
    simp [pushMotionFrame]
  have hno : detectNoMotion [frameNo1, frameNo2,
      ⟨2001, getHandCenter lmNo, (recognizeASL lmNo).letter.getD "unknown", lmNo⟩] =
      some ⟨"no", true, 8/10⟩ := by
    norm_num [detectNoMotion, lastN, frameNo1, frameNo2, fs_lmNo]
  have H : (suiteResult ⟨false, none⟩ (pushMotionFrame [frameNo1, frameNo2]
      ⟨2001, getHandCenter lmNo, (recognizeASL lmNo).letter.getD "unknown",
        lmNo⟩)).motionDetected = true := by
    rw [hpush]
    norm_num [suiteResult, detectWaveMotion, detectThankYouMotion, detectPleaseMotion,
      detectHelpMotion, detectLoveMotion, detectSorryMotion, detectYesMotion, hno,
      arbitrateGestures, matched]
  have H0 : (suiteResult ⟨false, none⟩ (pushMotionFrame ([] : List MotionFrame)
      ⟨2001, getHandCenter lmZero, (recognizeASL lmZero).letter.getD "unknown",
        lmZero⟩)).motionDetected = false := by
    rw [suite_short _ _ (by simp [pushMotionFrame])]
    rfl
  refine ⟨⟨by norm_num, ?_, ?_⟩, ⟨?_, ?_⟩, ?_⟩
  · exact ((gestureCycle_cooldown 2001 lmNo ⟨false, none⟩
      ⟨[frameNo1, frameNo2], 0, neutralResult⟩).2.1 (by norm_num) H).1
  · exact ((gestureCycle_cooldown 2001 lmNo ⟨false, none⟩
      ⟨[frameNo1, frameNo2], 0, neutralResult⟩).2.1 (by norm_num) H).2
  · exact ((gestureCycle_cooldown 2001 lmZero ⟨false, none⟩
      ⟨[], 0, neutralResult⟩).2.2.1 (by norm_num) H0).1
  · exact ((gestureCycle_cooldown 2001 lmZero ⟨false, none⟩
      ⟨[], 0, neutralResult⟩).2.2.1 (by norm_num) H0).2.2
  · exact ((gestureCycle_cooldown 100 lmZero ⟨false, none⟩
      ⟨[], 0, neutralResult⟩).2.2.2 (by norm_num)).2
